import Mathlib

/-
Verification of the SOLID-Principles repository (TypeScript teaching examples).

Each example file is embedded shallowly:
* a class whose instances carry no state is embedded as a set of method
  definitions, one per method, plus a small inductive type of the classes
  occurring in the hierarchy, used for dynamic dispatch;
* a method that either prints to the console or throws is embedded as a value
  of `Except String (List String)`: `Except.error msg` models a thrown
  `Error(msg)` and `Except.ok lines` models normal completion that printed
  `lines`;
* in-place mutation (pushing into / splicing an array) is embedded by explicit
  state passing: the method returns the updated object;
* JavaScript numbers are embedded as `ℚ` (every numeric literal in the
  repository, including `0.18`, `0.5` and `Math.PI`, is an exact dyadic or
  decimal value, and every arithmetic result the examples print is exact).
-/

/- ===== src/Liskov_substitution_principle/non_lsp/non_lsp.ts ===== -/

namespace non_lsp

/-- `class Bird`: method `fly` prints "Bird fly". -/
def Bird.fly : Except String (List String) := Except.ok ["Bird fly"]

/-- `class Bird`: method `makeSound` prints "bird makes sound". -/
def Bird.makeSound : Except String (List String) := Except.ok ["bird makes sound"]

/-- `class Aparrow extends Bird`: overridden `fly`. -/
def Aparrow.fly : Except String (List String) := Except.ok ["Sparrow fly"]

/-- `class Aparrow extends Bird`: overridden `makeSound`. -/
def Aparrow.makeSound : Except String (List String) := Except.ok ["Sparrow Sound"]

/-- `class Penguin extends Bird`: `fly` throws `new Error("Penguin cannot fly")`. -/
def Penguin.fly : Except String (List String) := Except.error "Penguin cannot fly"

/-- `class Penguin extends Bird`: overridden `makeSound`. -/
def Penguin.makeSound : Except String (List String) := Except.ok ["Pemhuin Sound"]

/-- The dynamic type of a value of static type `Bird`: an instance of `Bird`
itself or of one of its subclasses `Aparrow`, `Penguin`. -/
inductive BirdTy
  | bird
  | aparrow
  | penguin
deriving DecidableEq

/-- Dynamic dispatch of `bird.fly()`. -/
def BirdTy.fly : BirdTy → Except String (List String)
  | .bird => Bird.fly
  | .aparrow => Aparrow.fly
  | .penguin => Penguin.fly

/-- Dynamic dispatch of `bird.makeSound()`. -/
def BirdTy.makeSound : BirdTy → Except String (List String)
  | .bird => Bird.makeSound
  | .aparrow => Aparrow.makeSound
  | .penguin => Penguin.makeSound

/-- `function makeBirdFly(bird: Bird) { bird.fly(); bird.makeSound() }`:
a thrown error propagates out of the function. -/
def makeBirdFly (bird : BirdTy) : Except String (List String) :=
  match bird.fly with
  | Except.error e => Except.error e
  | Except.ok out1 =>
    match bird.makeSound with
    | Except.error e => Except.error e
    | Except.ok out2 => Except.ok (out1 ++ out2)

end non_lsp

/- ===== src/Interface_segregation_principle/non-isp/non_isp.ts ===== -/

namespace non_isp

/-- `class Duck implements Bird`: `fly`. -/
def Duck.fly : Except String (List String) := Except.ok ["Duck flies"]

/-- `class Duck implements Bird`: `swim`. -/
def Duck.swim : Except String (List String) := Except.ok ["Duck swims"]

/-- `class Duck implements Bird`: `makeSound`. -/
def Duck.makeSound : Except String (List String) := Except.ok ["Quack"]

/-- `class Penguinss implements Bird`: `fly` throws
`new Error("Penguin can't fly")`. -/
def Penguinss.fly : Except String (List String) := Except.error "Penguin can\x27t fly"

/-- `class Penguinss implements Bird`: `swim`. -/
def Penguinss.swim : Except String (List String) := Except.ok ["Penguin swims"]

/-- `class Penguinss implements Bird`: `makeSound`. -/
def Penguinss.makeSound : Except String (List String) := Except.ok ["Penguin sound"]

end non_isp

/- ===== src/Liskov_substitution_principle/recommended-lsp/lsp.ts ===== -/

namespace lsp

/-- `class BaseBird`: `makeSound` prints "Bird makes sound". -/
def BaseBird.makeSound : Except String (List String) := Except.ok ["Bird makes sound"]

/-- `class flyingBird extends BaseBird`: `fly` prints "flying brids can fly";
`makeSound` is inherited from `BaseBird`. -/
def flyingBird.fly : Except String (List String) := Except.ok ["flying brids can fly"]

/-- `class Aparrow extends flyingBird`: overridden `fly`. -/
def Aparrow.fly : Except String (List String) := Except.ok ["Aparrow can fly"]

/-- `class Aparrow extends flyingBird`: overridden `makeSound`. -/
def Aparrow.makeSound : Except String (List String) := Except.ok ["Aparrow can sound"]

/-- `class Penguins extends BaseBird`: overridden `makeSound`. -/
def Penguins.makeSound : Except String (List String) := Except.ok ["Penguins can make sounds"]

/-- The dynamic type of a value of static type `BaseBird`: an instance of
`BaseBird`, `flyingBird`, `Aparrow` or `Penguins`. -/
inductive BaseBirdTy
  | baseBird
  | flyingBird
  | aparrow
  | penguins
deriving DecidableEq

/-- Dynamic dispatch of `bird.makeSound()` on a `BaseBird`-typed value
(`flyingBird` inherits `BaseBird`'s implementation). -/
def BaseBirdTy.makeSound : BaseBirdTy → Except String (List String)
  | .baseBird => BaseBird.makeSound
  | .flyingBird => BaseBird.makeSound
  | .aparrow => Aparrow.makeSound
  | .penguins => Penguins.makeSound

/-- The dynamic type of a value of static type `flyingBird`: an instance of
`flyingBird` or of its subclass `Aparrow` (`Penguins` is not admissible, the
compiler rejects `letBirdFly(new Penguins())`). -/
inductive FlyingBirdTy
  | flyingBird
  | aparrow
deriving DecidableEq

/-- Upcast from the `flyingBird` hierarchy into the `BaseBird` hierarchy. -/
def FlyingBirdTy.toBase : FlyingBirdTy → BaseBirdTy
  | .flyingBird => BaseBirdTy.flyingBird
  | .aparrow => BaseBirdTy.aparrow

/-- Dynamic dispatch of `flyingBird.fly()`. -/
def FlyingBirdTy.fly : FlyingBirdTy → Except String (List String)
  | .flyingBird => flyingBird.fly
  | .aparrow => Aparrow.fly

/-- Dynamic dispatch of `flyingBird.makeSound()` (inherited through the
upcast). -/
def FlyingBirdTy.makeSound (fb : FlyingBirdTy) : Except String (List String) :=
  fb.toBase.makeSound

/-- `function letBirdMakeSound(bird: BaseBird) { bird.makeSound() }`. -/
def letBirdMakeSound (bird : BaseBirdTy) : Except String (List String) :=
  bird.makeSound

/-- `function letBirdFly(flyingBird: flyingBird) { flyingBird.fly();
flyingBird.makeSound() }`. -/
def letBirdFly (fb : FlyingBirdTy) : Except String (List String) :=
  match fb.fly with
  | Except.error e => Except.error e
  | Except.ok out1 =>
    match fb.makeSound with
    | Except.error e => Except.error e
    | Except.ok out2 => Except.ok (out1 ++ out2)

end lsp

/- ===== compliant ISP example (Duckss / Penguinsss file) ===== -/

namespace isp

/-- `class Duckss implements CanFly, CanSwim, CanMakeSound`: `fly`. -/
def Duckss.fly : Except String (List String) := Except.ok ["Duck flies"]

/-- `class Duckss`: `swim`. -/
def Duckss.swim : Except String (List String) := Except.ok ["Duck swims"]

/-- `class Duckss`: `makeSound`. -/
def Duckss.makeSound : Except String (List String) := Except.ok ["Quack"]

/-- `class Penguinsss implements CanSwim, CanMakeSound`: `swim`. -/
def Penguinsss.swim : Except String (List String) := Except.ok ["Penguin swims"]

/-- `class Penguinsss`: `makeSound`. -/
def Penguinsss.makeSound : Except String (List String) := Except.ok ["Penguin sound"]

end isp

/- ===== src/single_responsibility/recommended-srp (order.ts, product.ts,
InventoryService.ts, AccountingService.ts, InvoiceService.ts,
PaymentService.ts, main script) ===== -/

namespace srp

/-- `class Product { constructor(public id, public name, public price) }`. -/
structure Product where
  id : String
  name : String
  price : ℚ
deriving DecidableEq

/-- `class Order { private products: Product[] = []; constructor(public
orderId: string) {} }`. -/
structure Order where
  orderId : String
  products : List Product
deriving DecidableEq

/-- `new Order(orderId)`: the constructor stores `orderId` and initializes
`products` to the empty array. -/
def Order.new (orderId : String) : Order := Order.mk orderId []

/-- `getProducts(): Product[] { return this.products; }` — returns the
order's own products array (not a copy). -/
def Order.getProducts (o : Order) : List Product := o.products

/-- `class inventoryService` carries no state of its own. -/
structure inventoryService where
deriving DecidableEq

/-- `addProduct(order, product) { order.getProducts().push(product); }` —
pushing into the array returned by `getProducts` mutates the order's own
products array in place; the embedding returns the updated order. -/
def inventoryService.addProduct (self : inventoryService) (order : Order)
    (product : Product) : Order :=
  Order.mk order.orderId (order.getProducts ++ [product])

/-- JavaScript `Array.prototype.findIndex`: index of the first element
satisfying the predicate, `-1` when there is none. -/
def jsFindIndex {α : Type} (pred : α → Bool) : List α → Int
  | [] => -1
  | x :: xs =>
    if pred x then 0
    else
      let i := jsFindIndex pred xs
      if i = -1 then -1 else i + 1

/-- `removeProduct(order, productId)`: `findIndex(d => d.id == productId)` on
the order's products and, when the index is not `-1`, `splice(index, 1)` —
removal in place of the one element at that index; the embedding returns the
updated order. -/
def inventoryService.removeProduct (self : inventoryService) (order : Order)
    (productId : String) : Order :=
  let products := order.getProducts
  let index := jsFindIndex (fun d => d.id == productId) products
  if index ≠ -1 then Order.mk order.orderId (products.eraseIdx index.toNat)
  else order

/-- `class AccountingService` carries no state of its own. -/
structure AccountingService where
deriving DecidableEq

/-- `calculateTotal(order) { return order.getProducts().reduce((sum, p) =>
sum + p.price, 0); }`. -/
def AccountingService.calculateTotal (self : AccountingService)
    (order : Order) : ℚ :=
  (order.getProducts).foldl (fun sum p => sum + p.price) 0

/-- `calculateTax(order) { return this.calculateTotal(order) * 0.18; }`
(18% GST). -/
def AccountingService.calculateTax (self : AccountingService)
    (order : Order) : ℚ :=
  self.calculateTotal order * 0.18

/-- The `lines` array built by `InvoiceService.generateInvoice`; the call
`new Date().toDateString()` is embedded as the parameter `dateString`, the
run's clock input. -/
def InvoiceService.generateInvoiceLines (order : Order)
    (accounting : AccountingService) (dateString : String) : List String :=
  ["Invoice Date: " ++ dateString,
   "---------------------------------------------",
   "Product Name\tPrice"]
  ++ (order.getProducts).map (fun p => p.name ++ "\t\t" ++ toString p.price)
  ++ ["---------------------------------------------",
      "Subtotal: " ++ toString (accounting.calculateTotal order),
      "Tax: " ++ toString (accounting.calculateTax order),
      "Total: " ++ toString (accounting.calculateTotal order
                              + accounting.calculateTax order)]

/-- `static generateInvoice(order, accounting): string` returns
`lines.join('\n')`. -/
def InvoiceService.generateInvoice (order : Order)
    (accounting : AccountingService) (dateString : String) : String :=
  String.intercalate "\n" (InvoiceService.generateInvoiceLines order accounting dateString)

/-- `static processPayment(amount)`: the four console lines it prints. -/
def PaymentService.processPayment (amount : ℚ) : List String :=
  ["Processing payment...",
   "Payment of " ++ toString amount ++ " processed successfully!",
   "Added to accounting system!",
   "Email sent to customer!"]

/- The recommended-srp main script, top to bottom. -/

/-- `const order = new Order("ORD-001")`. -/
def order : Order := Order.new "ORD-001"

/-- `const inventory = new inventoryService()`. -/
def inventory : inventoryService := inventoryService.mk

/-- `const accounting = new AccountingService()`. -/
def accounting : AccountingService := AccountingService.mk

/-- `const product1 = new Product("1", "Laptop", 10000)`. -/
def product1 : Product := Product.mk "1" "Laptop" 10000

/-- `const product2 = new Product("2", "Mobile", 2000)`. -/
def product2 : Product := Product.mk "2" "Mobile" 2000

/-- State of `order` after `inventory.addProduct(order, product1);
inventory.addProduct(order, product2);` (both calls mutate `order` in
place). -/
def orderFinal : Order := inventory.addProduct (inventory.addProduct order product1) product2

/-- `const invoice = InvoiceService.generateInvoice(order, accounting)`, as a
function of the run's date string. -/
def invoice (dateString : String) : String :=
  InvoiceService.generateInvoice orderFinal accounting dateString

/-- `const total = accounting.calculateTotal(order) +
accounting.calculateTax(order)` — the amount then passed to
`PaymentService.processPayment(total)`. -/
def total : ℚ :=
  accounting.calculateTotal orderFinal + accounting.calculateTax orderFinal

end srp

/- ===== src/single_responsibility/non-srp/srp.ts and the `order.ts` it
imports ===== -/

namespace non_srp

/-- Modelled from the spec: `srp.ts` imports `Product` and `Order` from a
sibling `order.ts` that is not among the repository sources. Per the spec the
toy `Product` is a value holder with primitive fields set by the
constructor. -/
structure Product where
  id : String
  name : String
  price : ℚ
deriving DecidableEq

/-- Modelled from the spec: the non-SRP `Order` class of the missing
`order.ts`. Per the spec and the comments of `srp.ts` it manages products
(add, remove, get), calculates prices, generates invoices and processes
payments; `new Order()` takes no arguments and starts with no products. -/
structure Order where
  products : List Product
deriving DecidableEq

/-- Modelled from the spec: `new Order()`. -/
def Order.new : Order := Order.mk []

/-- Modelled from the spec: `order.getProducts()`. -/
def Order.getProducts (o : Order) : List Product := o.products

/-- Modelled from the spec: `order.addProduct(product)` appends the product
to the order's products. -/
def Order.addProduct (o : Order) (p : Product) : Order :=
  Order.mk (o.products ++ [p])

/-- Modelled from the spec: `order.generateInvoice()` prints the invoice
lines shown in the Sample Output comment of `srp.ts` — date line, separator,
header, one `name\t\tprice` line per product, separator, and the total price
of the products; the current date is the parameter `dateString`. -/
def Order.generateInvoice (o : Order) (dateString : String) : List String :=
  ["Invoice Date: " ++ dateString,
   "---------------------------------------------",
   "Product Name\tPrice"]
  ++ o.products.map (fun p => p.name ++ "\t\t" ++ toString p.price)
  ++ ["---------------------------------------------",
      "Total: " ++ toString (o.products.map Product.price).sum]

/-- Modelled from the spec: `order.processPayment()` prints the three payment
lines shown in the Sample Output comment of `srp.ts`. -/
def Order.processPayment (o : Order) : List String :=
  ["Processing payement....",
   "Payment processes Successfully!..",
   "Added to accounting system!..."]

/-- The statements of `srp.ts`, top to bottom: construct the two products
(both with id "1", as written), construct the order, add both products, then
`generateInvoice()` and `processPayment()`; the script's console output is
the concatenation of what the two calls print. -/
def script (dateString : String) : List String :=
  let product1 := Product.mk "1" "Laptop" 10000
  let product2 := Product.mk "1" "Mobile" 2000
  let order := Order.new
  let order1 := order.addProduct product1
  let order2 := order1.addProduct product2
  order2.generateInvoice dateString ++ order2.processPayment

end non_srp

/- ===== src/Open_close_principle/non_ocp/non_ocp.ts (both the violating
AreaCalculator and the compliant Shape hierarchy with AreaCalculator2) ===== -/

namespace ocp

/-- The exact value of the IEEE-754 double `Math.PI`:
`884279719003555 / 2^48`. -/
def mathPI : ℚ := 884279719003555 / 281474976710656

/-- A tagged shape record of the violating example, such as
`{ type: "rectangle", width: 10, height: 5 }`: a `type` tag plus the numeric
fields the calculator reads for that tag (fields a record does not carry are
never read by the calculator on that record). -/
structure ShapeRecord where
  type : String
  width : ℚ
  height : ℚ
  radius : ℚ
  base : ℚ
deriving DecidableEq

/-- `AreaCalculator.calculateArea(shapes)`: a `for`-loop accumulating
`totalArea` from 0, dispatching on `shape.type` with an if/else-if chain
(`rectangle`, `circle`, `triangle`; any other tag adds nothing). -/
def AreaCalculator.calculateArea (shapes : List ShapeRecord) : ℚ :=
  shapes.foldl
    (fun totalArea shape =>
      if shape.type = "rectangle" then totalArea + shape.width * shape.height
      else if shape.type = "circle" then
        totalArea + mathPI * shape.radius * shape.radius
      else if shape.type = "triangle" then
        totalArea + 0.5 * shape.base * shape.height
      else totalArea)
    0

/-- The dynamic type of an instance of a concrete subclass of the abstract
base `class Shape` (whose own `calculateArea` only throws and which the usage
never instantiates): `Rectangle(width, height)`, `Circle(radius)`,
`Triangle(base, height)` or `Hexagon(side, apothem)`, each storing its
constructor arguments. -/
inductive Shape
  | rectangle (width height : ℚ)
  | circle (radius : ℚ)
  | triangle (base height : ℚ)
  | hexagon (side apothem : ℚ)
deriving DecidableEq

/-- Dynamic dispatch of `shape.calculateArea()` over the concrete
subclasses. -/
def Shape.calculateArea : Shape → ℚ
  | .rectangle width height => width * height
  | .circle radius => mathPI * radius * radius
  | .triangle base height => 0.5 * base * height
  | .hexagon side apothem => 3 * side * apothem

/-- `AreaCalculator2.calculateArea(shapes)`:
`shapes.reduce((total, shape) => total + shape.calculateArea(), 0)`. -/
def AreaCalculator2.calculateArea (shapes : List Shape) : ℚ :=
  shapes.foldl (fun total shape => total + shape.calculateArea) 0

/-- Stated from the claim's words (refinement glue): the `Shape` instance
"corresponding" to a tagged record, carrying the same dimensions — `none`
when the tag is not one of `rectangle`, `circle`, `triangle`. -/
def ShapeRecord.toShape (s : ShapeRecord) : Option Shape :=
  if s.type = "rectangle" then some (Shape.rectangle s.width s.height)
  else if s.type = "circle" then some (Shape.circle s.radius)
  else if s.type = "triangle" then some (Shape.triangle s.base s.height)
  else none

/-- Proof helper: the area the if/else-if chain of `AreaCalculator` adds for
one record. -/
def ShapeRecord.area (s : ShapeRecord) : ℚ :=
  if s.type = "rectangle" then s.width * s.height
  else if s.type = "circle" then mathPI * s.radius * s.radius
  else if s.type = "triangle" then 0.5 * s.base * s.height
  else 0

/-- The `shapes` array of the violating usage:
`[{type:"rectangle", width:10, height:5}, {type:"circle", radius:7},
{type:"triangle", base:6, height:8}]` (fields a record does not carry are
embedded as 0; the calculator never reads them). -/
def shapes : List ShapeRecord :=
  [ShapeRecord.mk "rectangle" 10 5 0 0,
   ShapeRecord.mk "circle" 0 0 7 0,
   ShapeRecord.mk "triangle" 0 8 0 6]

end ocp

/- ===== dependency-inversion compliant example (IUserRepository,
UserUseService, UserUseController) ===== -/

namespace dip

/-- `interface IUserRepository { getUser(id: string): any; saveUser(user:
any): any }` — the `any` types are embedded as type parameters `G` (result of
`getUser`), `U` (argument of `saveUser`) and `S` (result of `saveUser`); an
implementing object is a record of its two methods. -/
structure IUserRepository (G U S : Type) where
  getUser : String → G
  saveUser : U → S

/-- `interface IUserService` — same shape as `IUserRepository`. -/
structure IUserService (G U S : Type) where
  getUser : String → G
  saveUser : U → S

/-- `class UserUseService implements IUserService { constructor(private repo:
IUserRepository) {} getUser(id) { return this.repo.getUser(id); }
saveUser(user) { return this.repo.saveUser(user); } }`. -/
def UserUseService {G U S : Type} (repo : IUserRepository G U S) :
    IUserService G U S :=
  IUserService.mk (fun id => repo.getUser id) (fun user => repo.saveUser user)

/-- One `console.log` entry of `UserUseController`: the label string together
with the value logged after it. -/
inductive ConsoleEntry (G S : Type)
  | getUserResult (user : G)
  | saveUserResult (userObj : S)

/-- `class UserUseController { constructor(private service: IUserService) {}
}`. -/
structure UserUseController (G U S : Type) where
  service : IUserService G U S

/-- `getUser(id) { const user = this.service.getUser(id);
console.log("getUser result:", user); return user; }` — the embedding returns
the value together with the console entries the call printed. -/
def UserUseController.getUser {G U S : Type} (c : UserUseController G U S)
    (id : String) : G × List (ConsoleEntry G S) :=
  let user := c.service.getUser id
  (user, [ConsoleEntry.getUserResult user])

/-- `saveUser(user) { const userObj = this.service.saveUser(user);
console.log("saveUser result:", userObj); return userObj; }`. -/
def UserUseController.saveUser {G U S : Type} (c : UserUseController G U S)
    (user : U) : S × List (ConsoleEntry G S) :=
  let userObj := c.service.saveUser user
  (userObj, [ConsoleEntry.saveUserResult userObj])

end dip

/- ===== Proof helpers ===== -/

/-- A left fold that only adds `f x` at each step is the start value plus the
sum of the mapped list. -/
theorem foldl_add_eq_sum {α : Type} (f : α → ℚ) (l : List α) (acc : ℚ) :
    List.foldl (fun a x => a + f x) acc l = acc + (l.map f).sum := by
  induction l generalizing acc with
  | nil => simp
  | cons x xs ih => simp [ih, add_assoc]

/-- `findIndex` returns `-1` when no element satisfies the predicate. -/
theorem jsFindIndex_eq_neg_one {α : Type} (pred : α → Bool) (l : List α)
    (h : ∀ x ∈ l, pred x = false) : srp.jsFindIndex pred l = -1 := by
  induction l with
  | nil => rfl
  | cons x xs ih =>
    have hx : pred x = false := h x (List.mem_cons_self x xs)
    have hxs := ih (fun y hy => h y (List.mem_cons_of_mem _ hy))
    simp [srp.jsFindIndex, hx, hxs]

/-- `findIndex` returns the position of the first element satisfying the
predicate. -/
theorem jsFindIndex_first_match {α : Type} (pred : α → Bool) (l1 : List α)
    (p : α) (l2 : List α) (hp : pred p = true)
    (h1 : ∀ q ∈ l1, pred q = false) :
    srp.jsFindIndex pred (l1 ++ p :: l2) = (l1.length : Int) := by
  induction l1 with
  | nil => simp [srp.jsFindIndex, hp]
  | cons x xs ih =>
    have hx : pred x = false := h1 x (List.mem_cons_self x xs)
    have hxs := ih (fun q hq => h1 q (List.mem_cons_of_mem _ hq))
    have hne : ((xs.length : Int)) ≠ -1 := by omega
    simp [srp.jsFindIndex, hx, hxs, hne]

/-- Removing the element at index `l1.length` from `l1 ++ p :: l2` removes
exactly `p`. -/
theorem eraseIdx_append_length {α : Type} (l1 : List α) (p : α) (l2 : List α) :
    (l1 ++ p :: l2).eraseIdx l1.length = l1 ++ l2 := by
  induction l1 with
  | nil => simp [List.eraseIdx]
  | cons x xs ih => simp [List.eraseIdx, ih]

/-- The violating calculator is the sum of the per-record areas. -/
theorem calculateArea_eq_area_sum (shapes : List ocp.ShapeRecord) :
    ocp.AreaCalculator.calculateArea shapes
      = (shapes.map ocp.ShapeRecord.area).sum := by
  unfold ocp.AreaCalculator.calculateArea
  calc List.foldl
        (fun totalArea shape =>
          if ocp.ShapeRecord.type shape = "rectangle" then
            totalArea + shape.width * shape.height
          else if shape.type = "circle" then
            totalArea + ocp.mathPI * shape.radius * shape.radius
          else if shape.type = "triangle" then
            totalArea + 0.5 * shape.base * shape.height
          else totalArea)
        0 shapes
      = List.foldl (fun a s => a + ocp.ShapeRecord.area s) 0 shapes := by
        apply List.foldl_ext
        intro a s _
        simp only [ocp.ShapeRecord.area]
        split_ifs <;> ring
    _ = 0 + (shapes.map ocp.ShapeRecord.area).sum := foldl_add_eq_sum _ _ _
    _ = (shapes.map ocp.ShapeRecord.area).sum := zero_add _

/-- The compliant calculator is the sum of the per-shape areas. -/
theorem calculateArea2_eq_sum (shapes : List ocp.Shape) :
    ocp.AreaCalculator2.calculateArea shapes
      = (shapes.map ocp.Shape.calculateArea).sum := by
  unfold ocp.AreaCalculator2.calculateArea
  rw [foldl_add_eq_sum, zero_add]

/-- On a record whose tag is one of the three known tags, the if/else-if
chain computes the area of the corresponding `Shape` instance. -/
theorem area_eq_calculateArea_of_some (s : ocp.ShapeRecord) (t : ocp.Shape)
    (h : s.toShape = some t) : s.area = t.calculateArea := by
  unfold ocp.ShapeRecord.toShape at h
  by_cases h1 : s.type = "rectangle"
  · rw [if_pos h1] at h
    injection h with h
    rw [← h]
    simp [ocp.ShapeRecord.area, ocp.Shape.calculateArea, h1]
  · rw [if_neg h1] at h
    by_cases h2 : s.type = "circle"
    · rw [if_pos h2] at h
      injection h with h
      rw [← h]
      simp [ocp.ShapeRecord.area, ocp.Shape.calculateArea, h1, h2]
    · rw [if_neg h2] at h
      by_cases h3 : s.type = "triangle"
      · rw [if_pos h3] at h
        injection h with h
        rw [← h]
        simp [ocp.ShapeRecord.area, ocp.Shape.calculateArea, h1, h2, h3]
      · rw [if_neg h3] at h
        exact absurd h (by simp)

/-- Summing the record areas agrees with summing the areas of the
corresponding shapes. -/
theorem area_sum_eq_filterMap (shapes : List ocp.ShapeRecord)
    (h : ∀ s ∈ shapes, (ocp.ShapeRecord.toShape s).isSome) :
    (shapes.map ocp.ShapeRecord.area).sum
      = ((shapes.filterMap ocp.ShapeRecord.toShape).map
          ocp.Shape.calculateArea).sum := by
  induction shapes with
  | nil => rfl
  | cons s xs ih =>
    have hs : (ocp.ShapeRecord.toShape s).isSome := h s (List.mem_cons_self s xs)
    obtain ⟨t, ht⟩ := Option.isSome_iff_exists.mp hs
    have ihx := ih (fun q hq => h q (List.mem_cons_of_mem _ hq))
    simp only [List.map_cons, List.sum_cons, List.filterMap_cons, ht]
    rw [area_eq_calculateArea_of_some s t ht, ihx]

/- ===== Claims C1 and C2 ===== -/

/-- Claim C1: in the violating examples, invoking the fly behavior on a
flightless-bird subtype always throws a plain Error: `Penguin.fly()` in
non_lsp.ts and `Penguinss.fly()` in non_isp.ts throw, hence
`makeBirdFly(new Penguin())` throws, while `makeBirdFly` applied to a `Bird`
or an `Aparrow` completes without error. -/
theorem penguin_fly_always_throws :
    (∃ e, non_lsp.Penguin.fly = Except.error e)
    ∧ (∃ e, non_isp.Penguinss.fly = Except.error e)
    ∧ (∃ e, non_lsp.makeBirdFly non_lsp.BirdTy.penguin = Except.error e)
    ∧ (∃ out, non_lsp.makeBirdFly non_lsp.BirdTy.bird = Except.ok out)
    ∧ (∃ out, non_lsp.makeBirdFly non_lsp.BirdTy.aparrow = Except.ok out) :=
  ⟨⟨_, rfl⟩, ⟨_, rfl⟩, ⟨_, rfl⟩, ⟨_, rfl⟩, ⟨_, rfl⟩⟩

/-- Claim C2: in the compliant redesigns the error path is unreachable: for
every bird of the lsp.ts hierarchy, `letBirdMakeSound` completes without
throwing; `letBirdFly` applied to any `flyingBird` completes without throwing;
and every method of `Duckss` and `Penguinsss` in the compliant ISP example
returns normally. -/
theorem compliant_examples_never_throw :
    (∀ bird : lsp.BaseBirdTy, ∃ out, lsp.letBirdMakeSound bird = Except.ok out)
    ∧ (∀ fb : lsp.FlyingBirdTy, ∃ out, lsp.letBirdFly fb = Except.ok out)
    ∧ (∃ out, isp.Duckss.fly = Except.ok out)
    ∧ (∃ out, isp.Duckss.swim = Except.ok out)
    ∧ (∃ out, isp.Duckss.makeSound = Except.ok out)
    ∧ (∃ out, isp.Penguinsss.swim = Except.ok out)
    ∧ (∃ out, isp.Penguinsss.makeSound = Except.ok out) := by
  refine ⟨fun bird => ?_, fun fb => ?_, ⟨_, rfl⟩, ⟨_, rfl⟩, ⟨_, rfl⟩, ⟨_, rfl⟩, ⟨_, rfl⟩⟩
  · cases bird <;> exact ⟨_, rfl⟩
  · cases fb <;> exact ⟨_, rfl⟩

/- ===== Claims C3 to C10 ===== -/

/-- Claim C3: the non-SRP script constructs two Products and an Order, adds
both products via `order.addProduct`, and its `order.generateInvoice()` and
`order.processPayment()` invocations complete and print the invoice and
payment lines shown in its comment. On the modelled script this intended
behavior holds: on the date of the Sample Output comment the printed lines
are exactly the documented ones. (The shipped `srp.ts` itself cannot run:
see the claim's record.) -/
theorem non_srp_script_intended_output :
    non_srp.script "Thu Jun 26 2025"
      = ["Invoice Date: Thu Jun 26 2025",
         "---------------------------------------------",
         "Product Name\tPrice",
         "Laptop\t\t10000",
         "Mobile\t\t2000",
         "---------------------------------------------",
         "Total: 12000",
         "Processing payement....",
         "Payment processes Successfully!..",
         "Added to accounting system!..."] := by
  simp only [non_srp.script, non_srp.Order.new, non_srp.Order.addProduct,
    non_srp.Order.generateInvoice, non_srp.Order.processPayment,
    List.map_cons, List.map_nil, List.sum_cons, List.sum_nil,
    List.nil_append, List.cons_append, List.append_nil]
  norm_num
  decide

/-- Claim C4, counterexample: `generateInvoice` embeds
`new Date().toDateString()`, so two runs of the same script on different
dates return different strings for the same order. -/
theorem generateInvoice_date_dependent :
    srp.InvoiceService.generateInvoice srp.orderFinal srp.accounting
        "Thu Jun 26 2025"
      ≠ srp.InvoiceService.generateInvoice srp.orderFinal srp.accounting
        "Fri Jun 27 2025" := by decide

/-- Claim C4, amended: every example is deterministic apart from the clock —
for any two runs, the invoice lines after the first (date) line coincide, so
`generateInvoice` returns the same string for the same order whenever the two
runs read the same date. -/
theorem generateInvoice_deterministic_after_date (o : srp.Order)
    (acc : srp.AccountingService) (d1 d2 : String) :
    (srp.InvoiceService.generateInvoiceLines o acc d1).drop 1
      = (srp.InvoiceService.generateInvoiceLines o acc d2).drop 1 := rfl

/-- Claim C5, counterexample: `InventoryService.addProduct(order, product)`
does mutate state reachable from the Order — after the call,
`order.getProducts()` no longer returns the contents it returned before. -/
theorem addProduct_mutates_order :
    (srp.inventory.addProduct srp.order srp.product1).getProducts
      ≠ srp.order.getProducts := by decide

/-- Claim C5, amended: `addProduct` mutates exactly the order's product
list, appending the given product to the previous contents; the order's
`orderId` is unchanged. -/
theorem addProduct_appends_product (inv : srp.inventoryService)
    (o : srp.Order) (p : srp.Product) :
    (inv.addProduct o p).getProducts = o.getProducts ++ [p]
    ∧ (inv.addProduct o p).orderId = o.orderId :=
  ⟨rfl, rfl⟩

/-- Claim C6: for every order, `calculateTotal` returns the sum of the prices
of the order's products and `calculateTax` returns 0.18 times that sum; on
the demonstration order (products priced 10000 and 2000) the total is 12000,
the tax exactly 2160, and the amount passed to
`PaymentService.processPayment` exactly 14160. -/
theorem accounting_totals :
    (∀ (acc : srp.AccountingService) (o : srp.Order),
        acc.calculateTotal o = ((o.getProducts).map srp.Product.price).sum)
    ∧ (∀ (acc : srp.AccountingService) (o : srp.Order),
        acc.calculateTax o = 0.18 * ((o.getProducts).map srp.Product.price).sum)
    ∧ srp.accounting.calculateTotal srp.orderFinal = 12000
    ∧ srp.accounting.calculateTax srp.orderFinal = 2160
    ∧ srp.total = 14160 := by
  have htot : ∀ (acc : srp.AccountingService) (o : srp.Order),
      acc.calculateTotal o = ((o.getProducts).map srp.Product.price).sum := by
    intro acc o
    unfold srp.AccountingService.calculateTotal
    rw [foldl_add_eq_sum, zero_add]
  have htax : ∀ (acc : srp.AccountingService) (o : srp.Order),
      acc.calculateTax o = 0.18 * ((o.getProducts).map srp.Product.price).sum := by
    intro acc o
    unfold srp.AccountingService.calculateTax
    rw [htot acc o]
    exact mul_comm _ _
  have hlist : srp.orderFinal.getProducts = [srp.product1, srp.product2] := rfl
  have h1 : srp.accounting.calculateTotal srp.orderFinal = 12000 := by
    rw [htot, hlist]
    norm_num [srp.product1, srp.product2]
  have h2 : srp.accounting.calculateTax srp.orderFinal = 2160 := by
    rw [htax, hlist]
    norm_num [srp.product1, srp.product2]
  refine ⟨htot, htax, h1, h2, ?_⟩
  unfold srp.total
  rw [h1, h2]
  norm_num

/-- Claim C7: `new Order(orderId)` stores `orderId` verbatim and its
`getProducts()` returns the empty list. -/
theorem order_constructor_fields (orderId : String) :
    (srp.Order.new orderId).orderId = orderId
    ∧ (srp.Order.new orderId).getProducts = ([] : List srp.Product) :=
  ⟨rfl, rfl⟩

/-- Claim C8: the violating and compliant Open/Closed calculators are
equivalent on their common domain — for every list of tagged records each of
which is a rectangle, circle or triangle, `AreaCalculator.calculateArea` on
the records equals `AreaCalculator2.calculateArea` on the corresponding
`Shape` instances with the same dimensions, and both return 0 on the empty
list. -/
theorem ocp_calculators_equivalent (shapes : List ocp.ShapeRecord)
    (h : ∀ s ∈ shapes, (ocp.ShapeRecord.toShape s).isSome) :
    ocp.AreaCalculator.calculateArea shapes
      = ocp.AreaCalculator2.calculateArea
          (shapes.filterMap ocp.ShapeRecord.toShape)
    ∧ ocp.AreaCalculator.calculateArea [] = 0
    ∧ ocp.AreaCalculator2.calculateArea [] = 0 := by
  refine ⟨?_, rfl, rfl⟩
  rw [calculateArea_eq_area_sum, calculateArea2_eq_sum,
    area_sum_eq_filterMap shapes h]

/-- Claim C8, witness: the demonstration list of the violating usage
(rectangle 10×5, circle of radius 7, triangle 6×8) satisfies the hypothesis
and the two calculators agree on it. -/
theorem ocp_calculators_equivalent_witness :
    (∀ s ∈ ocp.shapes, (ocp.ShapeRecord.toShape s).isSome)
    ∧ ocp.AreaCalculator.calculateArea ocp.shapes
        = ocp.AreaCalculator2.calculateArea
            (ocp.shapes.filterMap ocp.ShapeRecord.toShape) :=
  ⟨by decide, (ocp_calculators_equivalent ocp.shapes (by decide)).1⟩

/-- Claim C9: `removeProduct` leaves the order's product list unchanged when
no product has the given id, and otherwise removes exactly the first product
whose id matches, preserving every other product and their relative order. -/
theorem removeProduct_spec (inv : srp.inventoryService) (o : srp.Order)
    (productId : String) :
    ((∀ p ∈ o.getProducts, p.id ≠ productId) →
        (inv.removeProduct o productId).getProducts = o.getProducts)
    ∧ (∀ (l1 : List srp.Product) (p : srp.Product) (l2 : List srp.Product),
        o.getProducts = l1 ++ p :: l2 → p.id = productId →
        (∀ q ∈ l1, q.id ≠ productId) →
        (inv.removeProduct o productId).getProducts = l1 ++ l2) := by
  constructor
  · intro h
    have hfind : srp.jsFindIndex (fun d => d.id == productId) o.getProducts
        = -1 := by
      apply jsFindIndex_eq_neg_one
      intro x hx
      simpa using h x hx
    simp [srp.inventoryService.removeProduct, hfind]
  · intro l1 p l2 heq hpid hl1
    have hfind : srp.jsFindIndex (fun d => d.id == productId) o.getProducts
        = (l1.length : Int) := by
      rw [heq]
      apply jsFindIndex_first_match
      · simpa using hpid
      · intro q hq
        simpa using hl1 q hq
    have hne : ((l1.length : Int)) ≠ -1 := by omega
    have heq' : o.products = l1 ++ p :: l2 := heq
    simp only [srp.inventoryService.removeProduct, hfind, hne, if_true,
      ne_eq, not_false_iff]
    simp [srp.Order.getProducts, heq', eraseIdx_append_length]

/-- Claim C9, witness: on the demonstration order holding the Laptop and the
Mobile, removing product id "2" removes exactly the Mobile and keeps the
Laptop. -/
theorem removeProduct_spec_witness :
    srp.orderFinal.getProducts = [srp.product1] ++ srp.product2 :: []
    ∧ srp.product2.id = "2"
    ∧ (∀ q ∈ [srp.product1], srp.Product.id q ≠ "2")
    ∧ (srp.inventory.removeProduct srp.orderFinal "2").getProducts
        = [srp.product1] ++ [] :=
  ⟨by decide, by decide, by decide,
    (removeProduct_spec srp.inventory srp.orderFinal "2").2
      [srp.product1] srp.product2 [] (by decide) (by decide) (by decide)⟩

/-- Claim C10: in the DIP-compliant example the layers are pure delegation —
for every repository implementing `IUserRepository` and every id
(respectively every user), `UserUseController(new
UserUseService(repo)).getUser(id)` returns exactly `repo.getUser(id)` and
`saveUser(user)` returns exactly `repo.saveUser(user)`, and beyond the one
console-log entry per call the layers add no behavior. -/
theorem dip_layers_pure_delegation {G U S : Type}
    (repo : dip.IUserRepository G U S) (id : String) (user : U) :
    ((dip.UserUseController.mk (dip.UserUseService repo)).getUser id).1
        = repo.getUser id
    ∧ ((dip.UserUseController.mk (dip.UserUseService repo)).saveUser user).1
        = repo.saveUser user
    ∧ ((dip.UserUseController.mk (dip.UserUseService repo)).getUser id).2
        = [dip.ConsoleEntry.getUserResult (repo.getUser id)]
    ∧ ((dip.UserUseController.mk (dip.UserUseService repo)).saveUser user).2
        = [dip.ConsoleEntry.saveUserResult (repo.saveUser user)] :=
  ⟨rfl, rfl, rfl, rfl⟩
